import Mathlib

/-!
Verification of the AutoPen frontend delivery layer.

This file gives a shallow embedding, in Lean 4, of the client-side
delivery code of the AutoPen repository:

* `makeApiRequest`, `getAllTests`, `getTestById` — the fetch wrappers
  (present, with identical bodies, in `src/app/frontend/lib/api.ts` and in
  the polling variant of the same module);
* the polling `subscribeToTestEvents` (the variant that repeatedly calls
  `getTestById` and replays `events.slice(lastEventCount)`), embedded both
  as a per-snapshot transition function (`pollStep` / `pollRun`) and, for
  the disconnect analysis, as an interleaved small-step system
  (`subStep` / `subRun`) in which the `await getTestById` suspension point
  is explicit;
* the SSE `subscribeToTestEvents` of `api.ts` (`sseDelivered`);
* the status classification of `fetchTestData` in the `ScanInterface`
  component (`isScanningStatus`);
* the severity consumers: the per-severity counts of `HomePage`
  (`severityCounts`), the `groupedResults` reduce of `ScanLog`
  (`groupedResults`), and the badge class of `ScanHistoryComponent`
  (`findingBadgeClass`).

JavaScript strings are Lean `String`s; a missing/undefined `status` field
is modelled by the empty string, which is interchangeable with `undefined`
for every use the embedded code makes of it (only truthiness and
comparisons against nonempty literals).  `String.prototype.toLowerCase`
and `String.prototype.includes` are embedded as character-list functions
(`lowerString`, `strIncludes`) so that all definitions evaluate inside the
kernel.
-/

namespace AutoPen

/-- Embedding of `String.prototype.toLowerCase` over the character list
(ASCII casing, via `Char.toLower`, matches JS on all strings occurring in
the sources). -/
def lowerString (s : String) : String := ⟨s.data.map Char.toLower⟩

/-- Does the character list given first occur at the head of the second? -/
def startsWithChars : List Char → List Char → Bool
  | [], _ => true
  | _ :: _, [] => false
  | a :: as, b :: bs => a == b && startsWithChars as bs

/-- Does the character list given first occur anywhere in the second? -/
def occursInChars (needle : List Char) : List Char → Bool
  | [] => startsWithChars needle []
  | b :: bs => startsWithChars needle (b :: bs) || occursInChars needle bs

/-- Embedding of `hay.includes(needle)` of JavaScript. -/
def strIncludes (hay needle : String) : Bool := occursInChars needle.data hay.data

/-- The `details` payload of an event: `{ message: string | null, data: ... }`.
The free-form `data` sub-field is opaque to all code embedded here and is
modelled as an optional string. -/
structure EventDetails where
  message : Option String
  data : Option String
deriving DecidableEq, Repr

/-- One `PentestEvent` of the wire schema, with the fields the embedded
consumers read: `event_type`, `message`, `timestamp`, `details`. -/
structure PentestEvent where
  event_type : String
  message : String
  timestamp : String
  details : Option EventDetails
deriving DecidableEq, Repr

/-- One finding of the `results` array (`ApiResult` in `ScanInterface`):
`severity`, `type`, `title`, `description`, plus the optional `element`
reference used for highlighting. -/
structure TestResult where
  title : String
  type : String
  severity : String
  description : String
  element : Option String
deriving DecidableEq, Repr

/-- A `Test` (Run) as consumed by the frontend: `test_id`, `status`,
`events`, `results`.  A missing `status`/`events`/`results` field is
modelled by `""` / `[]` / `[]`, which the embedded code cannot
distinguish from the undefined value (it only tests truthiness, compares
`status` with nonempty literals and reads `events.length`/`slice`). -/
structure Test where
  test_id : String
  status : String
  events : List PentestEvent
  results : List TestResult
deriving DecidableEq, Repr

/-! ## The fetch layer: `makeApiRequest`, `getAllTests`, `getTestById` -/

/-- An HTTP response as the embedded code reads it: numeric `status`,
`statusText`, and the already-parsed JSON `body` (the code under scrutiny
consumes `response.json()` results; bodies that are not valid JSON are
outside the embedded fragment). -/
structure ApiResponse (α : Type) where
  status : Nat
  statusText : String
  body : α
deriving DecidableEq, Repr

/-- Embedding of `Response.ok` of the Fetch API: status in the inclusive range 200–299. -/
def ApiResponse.ok {α : Type} (r : ApiResponse α) : Bool :=
  decide (200 ≤ r.status ∧ r.status < 300)

/-- The `` `API error: ${status} ${statusText}` `` message thrown by
`getAllTests` / `getTestById` / `startNewTest` on a non-ok response. -/
def apiErrorMessage (status : Nat) (statusText : String) : String :=
  "API error: " ++ toString status ++ " " ++ statusText

/-- How one `fetch` inside `makeApiRequest` can settle: a response, a
rejection carrying a JS `Error` object (with its `name` and `message`),
or a rejection carrying a non-`Error` value. -/
inductive FetchOutcome (α : Type) where
  | success (response : ApiResponse α)
  | errorThrown ( name message : String)
  | nonErrorThrown
deriving DecidableEq, Repr

/-- The 30000 ms deadline armed by `makeApiRequest`
(`setTimeout(() => controller.abort(), 30000)`); on expiry the fetch
rejects with an `Error` named `AbortError`. -/
def requestTimeoutMs : Nat := 30000

/-- Embedding of `makeApiRequest`: forwards a settled response unchanged and rewrites
every rejection into a thrown `Error` message — `AbortError` to the
timeout message, messages containing `Failed to fetch` to the
network-error message, any other `Error` to `` `Network error: ${message}` ``,
and a non-`Error` rejection to the unknown-error message. -/
def makeApiRequest {α : Type} : FetchOutcome α → Except String (ApiResponse α)
  | .success r => .ok r
  | .errorThrown name msg =>
      if name = "AbortError" then
        .error ("Request timeout - API server may be unavailable")
      else if strIncludes msg ("Failed to fetch") then
        .error ("Network error - Cannot reach API server")
      else
        .error ("Network error: " ++ msg)
  | .nonErrorThrown => .error ("Unknown network error occurred")

/-- The parsed JSON body of `GET /tests` as `getAllTests` inspects it:
either an array (consumed as `Test[]`, elements unvalidated) or any
non-array JSON value. -/
inductive TestsBody where
  | jsonArray (tests : List Test)
  | jsonNonArray
deriving DecidableEq, Repr

/-- Embedding of `getAllTests` given the response: throws `` `API error: ...` `` when the
response is not ok, otherwise returns the body if it is an array and `[]`
if it is not (`Array.isArray(data) ? data : []`). -/
def getAllTests (r : ApiResponse TestsBody) : Except String (List Test) :=
  if r.ok = false then
    .error (apiErrorMessage r.status r.statusText)
  else
    match r.body with
    | .jsonArray ts => .ok ts
    | .jsonNonArray => .ok []

/-- Embedding of `getTestById` given the response: `404` becomes `null` (here `none`),
any other non-ok status throws `` `API error: ...` ``, and an ok response
returns the parsed body. -/
def getTestById (r : ApiResponse Test) : Except String (Option Test) :=
  if r.ok = false then
    if r.status = 404 then .ok none
    else .error (apiErrorMessage r.status r.statusText)
  else
    .ok (some r.body)

/-! ## The polling `subscribeToTestEvents` (snapshot mode) -/

/-- The settled result of one `await getTestById(testId)` as the polling
loop observes it: a thrown error (the `catch` branch), `null` (unknown
id), or a `Test` snapshot. -/
abbrev FetchResult := Except String (Option Test)

/-- The stop test of the polling loop:
`testData.status && status !== "pending" && status !== "running"`.
The empty string stands for both `""` and an undefined `status`, the two
falsy cases of the first conjunct. -/
def stopsPolling (status : String) : Bool :=
  !(status == "") && !(status == "pending") && !(status == "running")

/-- The mutable locals of one polling subscription that the per-snapshot
model tracks: the `isPolling` flag and the `lastEventCount` cursor. -/
structure PollState where
  isPolling : Bool
  lastEventCount : Nat
deriving DecidableEq, Repr

/-- What one or more executions of `poll` produce: the updated locals, the
events passed to `onEvent` in order, and the number of `onError` calls. -/
structure PollOutcome where
  final : PollState
  emitted : List PentestEvent
  errorCalls : Nat
deriving DecidableEq, Repr

/-- One execution of the `poll` closure on the settled result of its
`getTestById` call.  Mirrors the body line by line: the `if (!isPolling)
return` entry guard; the `catch` branch calling `onError` and leaving all
locals unchanged; the `null` snapshot doing nothing; and a snapshot first
replaying `events.slice(lastEventCount)` to `onEvent` whenever
`events.length > lastEventCount` (advancing the cursor to
`events.length`), then clearing `isPolling` when `stopsPolling` holds of
the status.  (The extra `getTestById` fired on the stop path only logs and
is invisible to `onEvent`/`onError`.)  Rescheduling via `setTimeout` is
guarded by the resulting `isPolling`, so a run over a list of snapshots is
meaningful exactly while `isPolling` remains set. -/
def pollStep (s : PollState) (r : FetchResult) : PollOutcome :=
  if s.isPolling = false then ⟨s, [], 0⟩
  else
    match r with
    | .error _ => ⟨s, [], 1⟩
    | .ok none => ⟨s, [], 0⟩
    | .ok (some t) =>
        let emitted :=
          if s.lastEventCount < t.events.length then
            t.events.drop s.lastEventCount
          else []
        let newCount :=
          if s.lastEventCount < t.events.length then
            t.events.length
          else s.lastEventCount
        ⟨⟨!stopsPolling t.status, newCount⟩, emitted, 0⟩

/-- The polling loop over a list of successive settled fetch results. -/
def pollRun (s : PollState) : List FetchResult → PollOutcome
  | [] => ⟨s, [], 0⟩
  | r :: rs =>
      let o₁ := pollStep s r
      let o₂ := pollRun o₁.final rs
      ⟨o₂.final, o₁.emitted ++ o₂.emitted, o₁.errorCalls + o₂.errorCalls⟩

/-- The locals right after `subscribeToTestEvents` initializes them:
`isPolling = true`, `lastEventCount = 0`. -/
def initialPollState : PollState := ⟨true, 0⟩

/-! ## The SSE `subscribeToTestEvents` (stream mode, `api.ts`) -/

/-- The stream client's `onmessage` handler over the messages the server
pushes: each message either parses to a `PentestEvent` (and is handed to
`onEvent`) or fails `JSON.parse` (the `catch` only logs).  The delivered
sequence is therefore the parseable messages in arrival order. -/
def sseDelivered (messages : List (Option PentestEvent)) : List PentestEvent :=
  messages.filterMap id

/-! ## The interleaved model of one polling subscription (disconnect) -/

/-- The state of one polling subscription with the suspension point of
`poll` made explicit: besides the two locals, whether some execution of
`poll` has passed its entry guard and is awaiting `getTestById`
(`awaitingResponse`), and whether a `setTimeout(poll, 5000)` is pending
(`timeoutPending`). -/
structure SubscriptionState where
  isPolling : Bool
  lastEventCount : Nat
  awaitingResponse : Bool
  timeoutPending : Bool
deriving DecidableEq, Repr

/-- The atomic steps of the subscription: the pending timeout fires and
`poll` runs up to its suspension point; the in-flight `getTestById`
settles and the rest of the `poll` body runs; or the caller invokes the
cleanup function returned by `subscribeToTestEvents`. -/
inductive SubAction where
  | timerFires
  | respond (r : FetchResult)
  | cleanup
deriving Repr

/-- One atomic step.  `timerFires`: consumes the pending timeout and runs
the entry guard `if (!isPolling) return`, entering the awaiting state only
when still polling.  `respond`: runs the remainder of the `poll` body on
the settled result — note that the body re-checks nothing: it replays the
slice to `onEvent` even if `isPolling` was cleared while suspended, then
clears `isPolling` on a stopping status, and re-arms the timeout exactly
when `isPolling` is still set.  `cleanup`: sets `isPolling = false` and
`clearTimeout(timeoutId)`, leaving any in-flight `poll` untouched. -/
def subStep (s : SubscriptionState) : SubAction → SubscriptionState × List PentestEvent
  | .timerFires =>
      if s.timeoutPending && !s.awaitingResponse then
        if s.isPolling then (⟨s.isPolling, s.lastEventCount, true, false⟩, [])
        else (⟨s.isPolling, s.lastEventCount, s.awaitingResponse, false⟩, [])
      else (s, [])
  | .respond r =>
      if s.awaitingResponse = false then (s, [])
      else
        match r with
        | .error _ =>
            (⟨s.isPolling, s.lastEventCount, false, s.isPolling⟩, [])
        | .ok none =>
            (⟨s.isPolling, s.lastEventCount, false, s.isPolling⟩, [])
        | .ok (some t) =>
            let emitted :=
              if s.lastEventCount < t.events.length then
                t.events.drop s.lastEventCount
              else []
            let newCount :=
              if s.lastEventCount < t.events.length then
                t.events.length
              else s.lastEventCount
            let polling := s.isPolling && !stopsPolling t.status
            (⟨polling, newCount, false, polling⟩, emitted)
  | .cleanup => (⟨false, s.lastEventCount, s.awaitingResponse, false⟩, [])

/-- A sequence of atomic steps, collecting everything given to `onEvent`. -/
def subRun (s : SubscriptionState) : List SubAction → SubscriptionState × List PentestEvent
  | [] => (s, [])
  | a :: as =>
      let o₁ := subStep s a
      let o₂ := subRun o₁.1 as
      (o₂.1, o₁.2 ++ o₂.2)

/-- The subscription state right after `subscribeToTestEvents` returns:
the first `poll()` has already run its entry guard and is awaiting its
`getTestById`. -/
def initialSubState : SubscriptionState := ⟨true, 0, true, false⟩

/-! ## Status and severity consumers -/

/-- The scanning classification of `fetchTestData` in `ScanInterface`:
`setIsScanning(status === "in_progress" || status === "running" ||
status === "active")`. -/
def isScanningStatus (status : String) : Bool :=
  status == "in_progress" || status == "running" || status == "active"

/-- The per-severity finding counts computed by `HomePage`:
`results.filter(r => r.severity?.toLowerCase() === s).length` for `s`
each of `high`, `medium`, `low`. -/
def severityCounts (results : List TestResult) : Nat × Nat × Nat :=
  ((results.filter (fun r => lowerString r.severity == "high")).length,
   (results.filter (fun r => lowerString r.severity == "medium")).length,
   (results.filter (fun r => lowerString r.severity == "low")).length)

/-- One step of the `groupedResults` reduce of `ScanLog`:
`acc[severity].push(result)` after `if (!acc[severity]) acc[severity] = []`,
on an association list in key-insertion order (JS object string keys
enumerate in insertion order). -/
def pushGroup (acc : List (String × List TestResult)) (key : String) (r : TestResult) :
    List (String × List TestResult) :=
  match acc with
  | [] => [(key, [r])]
  | (k, rs) :: rest =>
      if k = key then (k, rs ++ [r]) :: rest
      else (k, rs) :: pushGroup rest key r

/-- Embedding of `groupedResults` of `ScanLog`: the reduce grouping `results` under
`result.severity.toLowerCase()`. -/
def groupedResults (results : List TestResult) : List (String × List TestResult) :=
  results.foldl (fun acc r => pushGroup acc (lowerString r.severity) r) []

/-- The severity badge class of `ScanHistoryComponent`:
`severity === "HIGH" ? "bg-red-500" : severity === "MEDIUM" ?
"bg-yellow-500" : "bg-blue-500"`. -/
def findingBadgeClass (severity : String) : String :=
  if severity == "HIGH" then ("bg-red-500")
  else if severity == "MEDIUM" then ("bg-yellow-500")
  else ("bg-blue-500")

/-! ## Statement vocabulary

Auxiliary notions used only to state the verified properties (not
translations of repository code): the last of a nonempty snapshot list,
the "all snapshots before the last keep the loop polling" condition, and
equality of events/snapshots up to the informational `timestamp` field. -/

/-- The last snapshot of the nonempty list `t :: rest`. -/
def lastTest (t : Test) : List Test → Test
  | [] => t
  | u :: us => lastTest u us

/-- Every snapshot of `t :: rest` except the final one leaves the loop
polling (its status is `pending`, `running`, or missing). -/
def allButLastActive : Test → List Test → Prop
  | _, [] => True
  | t, u :: us => stopsPolling t.status = false ∧ allButLastActive u us

/-- The event with its informational `timestamp` field blanked. -/
def stripTimestamp (e : PentestEvent) : PentestEvent :=
  ⟨e.event_type, e.message, "", e.details⟩

/-- Two events that differ at most in their `timestamp` field. -/
def EventEqUpToTime (e₁ e₂ : PentestEvent) : Prop :=
  stripTimestamp e₁ = stripTimestamp e₂

/-- Two snapshots that differ at most in the `timestamp` fields of their
events. -/
def TestEqUpToTime (t₁ t₂ : Test) : Prop :=
  t₁.test_id = t₂.test_id ∧ t₁.status = t₂.status ∧ t₁.results = t₂.results ∧
  List.Forall₂ EventEqUpToTime t₁.events t₂.events

/-- Two settled fetch results that differ at most in event timestamps. -/
def FetchEqUpToTime : FetchResult → FetchResult → Prop
  | Except.ok (some t₁), Except.ok (some t₂) => TestEqUpToTime t₁ t₂
  | Except.ok none, Except.ok none => True
  | Except.error m₁, Except.error m₂ => m₁ = m₂
  | _, _ => False

/-! ## Concrete demonstration data (used by witnesses and counterexamples) -/

/-- A first demonstration event. -/
def demoEventA : PentestEvent := ⟨"info", "Test started", "2024-01-01T00:00:00Z", none⟩

/-- A second demonstration event. -/
def demoEventB : PentestEvent := ⟨"load", "Loaded login page", "2024-01-01T00:00:05Z", none⟩

/-- A third demonstration event. -/
def demoEventC : PentestEvent := ⟨"vulnerability", "SQL injection", "2024-01-01T00:00:09Z", none⟩

/-- Event `demoEventA` with a different timestamp only. -/
def demoEventA' : PentestEvent := ⟨"info", "Test started", "1999-12-31T23:59:59Z", none⟩

/-- A running snapshot with one event. -/
def demoSnap1 : Test := ⟨"id1", "running", [demoEventA], []⟩

/-- A later running snapshot extending `demoSnap1`. -/
def demoSnap2 : Test := ⟨"id1", "running", [demoEventA, demoEventB], []⟩

/-- The final, completed snapshot extending `demoSnap2`. -/
def demoSnap3 : Test := ⟨"id1", "completed", [demoEventA, demoEventB, demoEventC], []⟩

/-- Snapshot `demoSnap1` with the event timestamp changed. -/
def demoSnap1' : Test := ⟨"id1", "running", [demoEventA'], []⟩

/-- A finding with upper-case severity. -/
def demoHigh : TestResult := ⟨"Login bypass", "sql_injection", "HIGH", "bypass", none⟩

/-- A finding with mixed-case severity. -/
def demoMedium : TestResult := ⟨"Weak header", "header", "Medium", "weak", none⟩

/-- A recasing of findings: severities whose lower-casing is `high` are
rewritten to the upper-case spelling `HIGH`; every other field and every
other finding is untouched. -/
def demoRecase (r : TestResult) : TestResult :=
  if lowerString r.severity == "high" then
    ⟨r.title, r.type, "HIGH", r.description, r.element⟩
  else r

/-! ## Theorems -/

/-- A `404` response is never ok. -/
theorem ok_eq_false_of_status_404 {α : Type} (r : ApiResponse α) (h : r.status = 404) :
    r.ok = false := by
  simp [ApiResponse.ok, h]

/-- Claim C5: `getTestById` returns `null` exactly on HTTP 404 (an unknown
id is not an error); every other non-ok status throws an `API error`; an
ok response returns the parsed body. -/
theorem getTestById_unknown_id (r : ApiResponse Test) :
    (getTestById r = Except.ok none ↔ r.status = 404) ∧
    (r.ok = false → r.status ≠ 404 →
      getTestById r = Except.error (apiErrorMessage r.status r.statusText)) ∧
    (r.ok = true → getTestById r = Except.ok (some r.body)) := by
  refine ⟨⟨?_, ?_⟩, ?_, ?_⟩
  · intro h
    by_cases hok : r.ok = false
    · by_cases h404 : r.status = 404
      · exact h404
      · simp [getTestById, hok, h404] at h
    · simp [getTestById, hok] at h
  · intro h404
    simp [getTestById, ok_eq_false_of_status_404 r h404, h404]
  · intro hok h404
    simp [getTestById, hok, h404]
  · intro hok
    simp [getTestById, hok]

/-- Witness for C5: a 500 response makes `getTestById` throw. -/
theorem getTestById_unknown_id_witness :
    getTestById ⟨500, "Server Error", demoSnap1⟩
      = Except.error (apiErrorMessage 500 ("Server Error")) :=
  (getTestById_unknown_id ⟨500, "Server Error", demoSnap1⟩).2.1 (by decide) (by decide)

/-- Claim C9: `getAllTests` throws exactly on a non-ok response; an ok
response with a non-array JSON body yields `[]`, and an ok response with
an array body yields that array — a non-array value is never returned. -/
theorem getAllTests_array_normalization (r : ApiResponse TestsBody) :
    ((∃ msg, getAllTests r = Except.error msg) ↔ r.ok = false) ∧
    (r.ok = true → r.body = TestsBody.jsonNonArray → getAllTests r = Except.ok []) ∧
    (∀ ts, r.ok = true → r.body = TestsBody.jsonArray ts → getAllTests r = Except.ok ts) := by
  refine ⟨⟨?_, ?_⟩, ?_, ?_⟩
  · rintro ⟨msg, hmsg⟩
    by_cases hok : r.ok = false
    · exact hok
    · cases hbody : r.body with
      | jsonArray ts => simp [getAllTests, hok, hbody] at hmsg
      | jsonNonArray => simp [getAllTests, hok, hbody] at hmsg
  · intro hok
    exact ⟨apiErrorMessage r.status r.statusText, by simp [getAllTests, hok]⟩
  · intro hok hbody
    simp [getAllTests, hok, hbody]
  · intro ts hok hbody
    simp [getAllTests, hok, hbody]

/-- Witness for C9: an ok response whose body is the JSON object
`{}` (not an array) yields the empty list. -/
theorem getAllTests_array_normalization_witness :
    getAllTests ⟨200, "OK", TestsBody.jsonNonArray⟩ = Except.ok [] :=
  (getAllTests_array_normalization ⟨200, "OK", TestsBody.jsonNonArray⟩).2.1 (by decide) rfl

/-- Claim C10: `makeApiRequest` arms a 30000 ms abort deadline, and every
rejected fetch surfaces as a thrown `Error` with a descriptive message:
`AbortError` becomes the timeout message, a message containing
`Failed to fetch` becomes the network-error message, any other `Error`
message `m` becomes `Network error: m`, a non-`Error` rejection becomes
the unknown-error message, and no rejection ever propagates raw. -/
theorem makeApiRequest_error_normalization ( name msg : String) :
    requestTimeoutMs = 30000 ∧
    makeApiRequest (α := Test) (FetchOutcome.errorThrown ("AbortError") msg)
      = Except.error ("Request timeout - API server may be unavailable") ∧
    ( name ≠ "AbortError" → strIncludes msg ("Failed to fetch") = true →
      makeApiRequest (α := Test) (FetchOutcome.errorThrown name msg)
        = Except.error ("Network error - Cannot reach API server")) ∧
    ( name ≠ "AbortError" → strIncludes msg ("Failed to fetch") = false →
      makeApiRequest (α := Test) (FetchOutcome.errorThrown name msg)
        = Except.error ("Network error: " ++ msg)) ∧
    makeApiRequest (α := Test) FetchOutcome.nonErrorThrown
      = Except.error ("Unknown network error occurred") ∧
    (∀ o : FetchOutcome Test, (∀ resp, o ≠ FetchOutcome.success resp) →
      ∃ m, makeApiRequest o = Except.error m) := by
  refine ⟨rfl, by simp [makeApiRequest], ?_, ?_, rfl, ?_⟩
  · intro hname hmsg
    simp [makeApiRequest, hname, hmsg]
  · intro hname hmsg
    simp [makeApiRequest, hname, hmsg]
  · intro o ho
    cases o with
    | success resp => exact absurd rfl (ho resp)
    | errorThrown n m =>
        by_cases hn : n = "AbortError"
        · exact ⟨("Request timeout - API server may be unavailable"),
            by simp [makeApiRequest, hn]⟩
        · by_cases hm : strIncludes m ("Failed to fetch") = true
          · exact ⟨("Network error - Cannot reach API server"),
              by simp [makeApiRequest, hn, hm]⟩
          · exact ⟨("Network error: " ++ m), by simp [makeApiRequest, hn, hm]⟩
    | nonErrorThrown => exact ⟨_, rfl⟩

/-- Witness for C10: a `TypeError: Failed to fetch` rejection surfaces as
the network-error message. -/
theorem makeApiRequest_error_normalization_witness :
    makeApiRequest (α := Test) (FetchOutcome.errorThrown ("TypeError") ("Failed to fetch"))
      = Except.error ("Network error - Cannot reach API server") :=
  (makeApiRequest_error_normalization ("TypeError") ("Failed to fetch")).2.2.1
    (by decide) (by decide)

/-- Counterexample to claim C4: the consumers accept status strings
outside `pending|running|completed|failed` instead of rejecting them —
`fetchTestData` classifies both `in_progress` and `active` as an active
(scanning) run, and the polling loop treats `in_progress` as a stop
(terminal) condition. -/
theorem status_vocabulary_counterexample :
    isScanningStatus ("in_progress") = true ∧
    isScanningStatus ("active") = true ∧
    (pollStep ⟨true, 0⟩ (Except.ok (some ⟨"id1", "in_progress", [], []⟩))).final.isPolling
      = false := by decide

/-- Claim C4 as amended: the delivery-boundary consumers accept arbitrary
status strings rather than rejecting unknown ones — the polling loop stops
exactly when the status is a nonempty string other than `pending` and
`running`, and `fetchTestData` classifies a run as scanning exactly when
the status is `in_progress`, `running`, or `active`. -/
theorem status_vocabulary_amended (t : Test) (k : Nat) :
    ((pollStep ⟨true, k⟩ (Except.ok (some t))).final.isPolling = false
      ↔ ¬(t.status = "" ∨ t.status = "pending" ∨ t.status = "running")) ∧
    (isScanningStatus t.status = true
      ↔ (t.status = "in_progress" ∨ t.status = "running" ∨ t.status = "active")) := by
  constructor
  · simp [pollStep, stopsPolling, not_or, and_assoc]
  · simp [isScanningStatus, or_assoc]

/-- Witness for C4 (amended): the characterization at the concrete status
`active`. -/
theorem status_vocabulary_amended_witness :
    ((pollStep ⟨true, 0⟩ (Except.ok (some ⟨"id1", "active", [], []⟩))).final.isPolling = false
      ↔ ¬(("active" : String) = "" ∨ ("active" : String) = "pending"
          ∨ ("active" : String) = "running")) ∧
    (isScanningStatus ("active") = true
      ↔ (("active" : String) = "in_progress" ∨ ("active" : String) = "running"
          ∨ ("active" : String) = "active")) :=
  status_vocabulary_amended ⟨"id1", "active", [], []⟩ 0

/-- One error step of the polling loop: `onError` fires once and every
local survives unchanged. -/
theorem pollStep_error (k : Nat) (m : String) :
    pollStep ⟨true, k⟩ (Except.error m) = ⟨⟨true, k⟩, [], 1⟩ := by
  simp [pollStep]

/-- Any number of consecutive failed polls leave the loop polling with the
cursor unchanged, emit nothing, and call `onError` once per failure. -/
theorem pollRun_errors (k : Nat) (msgs : List String) :
    pollRun ⟨true, k⟩ (msgs.map Except.error) = ⟨⟨true, k⟩, [], msgs.length⟩ := by
  induction msgs with
  | nil => rfl
  | cons m ms ih => simp [pollRun, pollStep, ih, Nat.add_comm]

/-- Claim C3: a throwing `getTestById` does not abort the subscription —
the poll step reports the error via `onError`, keeps `lastEventCount` and
`isPolling` unchanged (so the next poll is scheduled), arbitrarily many
consecutive failures keep it polling, and only a fetched stopping status
(in particular a terminal `completed`/`failed`) ends the polling. -/
theorem polling_continues_on_error (k : Nat) (m : String) (msgs : List String) (t : Test) :
    pollStep ⟨true, k⟩ (Except.error m) = ⟨⟨true, k⟩, [], 1⟩ ∧
    pollRun ⟨true, k⟩ (msgs.map Except.error) = ⟨⟨true, k⟩, [], msgs.length⟩ ∧
    ((t.status = "completed" ∨ t.status = "failed") →
      (pollStep ⟨true, k⟩ (Except.ok (some t))).final.isPolling = false) := by
  refine ⟨pollStep_error k m, pollRun_errors k msgs, ?_⟩
  intro ht
  rcases ht with h | h <;> simp [pollStep, stopsPolling, h]

/-- Witness for C3: two failed polls leave the subscription polling at
cursor 1, and a subsequent `completed` snapshot stops it. -/
theorem polling_continues_on_error_witness :
    pollStep ⟨true, 1⟩ (Except.error ("Network error - Cannot reach API server"))
      = ⟨⟨true, 1⟩, [], 1⟩ ∧
    pollRun ⟨true, 1⟩ (["boom", "boom"].map Except.error) = ⟨⟨true, 1⟩, [], 2⟩ ∧
    (pollStep ⟨true, 1⟩ (Except.ok (some demoSnap3))).final.isPolling = false := by
  have h := polling_continues_on_error 1
    ("Network error - Cannot reach API server") ["boom", "boom"] demoSnap3
  exact ⟨h.1, h.2.1, h.2.2 (Or.inl rfl)⟩

/-- A successful poll step at a cursor within the snapshot: the slice
past the cursor is replayed, the cursor advances to the snapshot length,
and the loop keeps polling unless the status stops it. -/
theorem pollStep_snapshot (k : Nat) (t : Test) (hk : k ≤ t.events.length) :
    pollStep ⟨true, k⟩ (Except.ok (some t))
      = ⟨⟨!stopsPolling t.status, t.events.length⟩, t.events.drop k, 0⟩ := by
  by_cases h : k < t.events.length
  · simp [pollStep, h]
  · have he : t.events.length = k := Nat.le_antisymm (Nat.not_lt.mp h) hk
    subst he
    simp [pollStep, List.drop_length]

/-- Along a prefix chain of snapshots, the first event list is a prefix of
the last one. -/
theorem events_prefix_lastTest : ∀ (rest : List Test) (t : Test),
    List.Chain (fun a b => a.events <+: b.events) t rest →
    t.events <+: (lastTest t rest).events := by
  intro rest
  induction rest with
  | nil => exact fun t _ => ⟨[], List.append_nil _⟩
  | cons u us ih =>
    intro t h
    cases h with
    | cons hru hc =>
      obtain ⟨r₁, hr₁⟩ := hru
      obtain ⟨r₂, hr₂⟩ := ih u hc
      exact ⟨r₁ ++ r₂, by rw [lastTest, ← List.append_assoc, hr₁, hr₂]⟩

/-- Telescoping of cursor-resumed slices: replaying a prefix from cursor
`k` and then the extension from the prefix's length replays the whole
list from `k`. -/
theorem drop_drop_append {α : Type} {l₁ l₂ : List α} (k : Nat) (hk : k ≤ l₁.length)
    (h : l₁ <+: l₂) : l₁.drop k ++ l₂.drop l₁.length = l₂.drop k := by
  obtain ⟨r, rfl⟩ := h
  rw [List.drop_left, List.drop_append_of_le_length hk]

/-- Unfolding of one iteration of the polling loop. -/
theorem pollRun_cons (s : PollState) (r : FetchResult) (rs : List FetchResult) :
    pollRun s (r :: rs)
      = ⟨(pollRun (pollStep s r).final rs).final,
         (pollStep s r).emitted ++ (pollRun (pollStep s r).final rs).emitted,
         (pollStep s r).errorCalls + (pollRun (pollStep s r).final rs).errorCalls⟩ := rfl

/-- The polling loop over a prefix chain of successfully fetched
snapshots, none of which stops it before the last: starting at any cursor
within the first snapshot it replays exactly the last snapshot's events
past that cursor, advances the cursor to the last snapshot's length,
calls `onError` never, and remains polling unless the last status stops
it. -/
theorem pollRun_snapshots : ∀ (rest : List Test) (t : Test) (k : Nat),
    k ≤ t.events.length →
    List.Chain (fun a b => a.events <+: b.events) t rest →
    allButLastActive t rest →
    pollRun ⟨true, k⟩ ((t :: rest).map (fun x => Except.ok (some x)))
      = ⟨⟨!stopsPolling (lastTest t rest).status, (lastTest t rest).events.length⟩,
         (lastTest t rest).events.drop k, 0⟩ := by
  intro rest
  induction rest with
  | nil =>
    intro t k hk _ _
    simp [pollRun, pollStep_snapshot k t hk, lastTest]
  | cons u us ih =>
    intro t k hk hchain hactive
    cases hchain with
    | cons hru hc =>
      obtain ⟨hstop, hact⟩ := hactive
      have hlen : t.events.length ≤ u.events.length := by
        obtain ⟨r, hr⟩ := hru
        rw [← hr]
        simp
      have hpre : t.events <+: (lastTest u us).events := by
        obtain ⟨r₁, hr₁⟩ := hru
        obtain ⟨r₂, hr₂⟩ := events_prefix_lastTest us u hc
        exact ⟨r₁ ++ r₂, by rw [← List.append_assoc, hr₁, hr₂]⟩
      rw [List.map_cons, pollRun_cons, pollStep_snapshot k t hk]
      simp only [hstop, Bool.not_false]
      rw [ih u t.events.length hlen hc hact]
      simp only [lastTest]
      simp [drop_drop_append k hk hpre]

/-- Claim C1: over a run whose fetched snapshots extend one another
(append-only event log) and keep the loop active until the final one, the
polling `subscribeToTestEvents` hands `onEvent` exactly the sequence the
SSE `subscribeToTestEvents` hands it when the server streams the same
log's events in append order — both deliver the full final event list in
order. -/
theorem delivery_mode_equivalence (t : Test) (rest : List Test)
    (hchain : List.Chain (fun a b => a.events <+: b.events) t rest)
    (hactive : allButLastActive t rest) :
    (pollRun initialPollState ((t :: rest).map (fun x => Except.ok (some x)))).emitted
      = sseDelivered ((lastTest t rest).events.map some) ∧
    sseDelivered ((lastTest t rest).events.map some) = (lastTest t rest).events := by
  have h := pollRun_snapshots rest t 0 (Nat.zero_le _) hchain hactive
  have hs : sseDelivered ((lastTest t rest).events.map some) = (lastTest t rest).events := by
    simp [sseDelivered]
  rw [initialPollState, h]
  exact ⟨by simpa using hs.symm, hs⟩

/-- Witness for C1: on the three-snapshot run `demoSnap1 ⊑ demoSnap2 ⊑
demoSnap3`, polling and streaming deliver the same sequence. -/
theorem delivery_mode_equivalence_witness :
    (pollRun initialPollState
        ([demoSnap1, demoSnap2, demoSnap3].map (fun x => Except.ok (some x)))).emitted
      = sseDelivered ((lastTest demoSnap1 [demoSnap2, demoSnap3]).events.map some) ∧
    sseDelivered ((lastTest demoSnap1 [demoSnap2, demoSnap3]).events.map some)
      = (lastTest demoSnap1 [demoSnap2, demoSnap3]).events :=
  delivery_mode_equivalence demoSnap1 [demoSnap2, demoSnap3]
    (List.Chain.cons ⟨[demoEventB], rfl⟩ (List.Chain.cons ⟨[demoEventC], rfl⟩ List.Chain.nil))
    ⟨by decide, by decide, trivial⟩

/-- Claim C2: over prefix-extending snapshot responses the polling
subscription emits every event of the final snapshot exactly once, in
ascending list position, with no gaps and no duplicates — the emitted
sequence is exactly the final events list — and its `lastEventCount`
cursor resumes at the acknowledged length. -/
theorem polling_exactly_once_in_order (t : Test) (rest : List Test)
    (hchain : List.Chain (fun a b => a.events <+: b.events) t rest)
    (hactive : allButLastActive t rest) :
    (pollRun initialPollState ((t :: rest).map (fun x => Except.ok (some x)))).emitted
      = (lastTest t rest).events ∧
    (pollRun initialPollState
        ((t :: rest).map (fun x => Except.ok (some x)))).final.lastEventCount
      = (lastTest t rest).events.length := by
  have h := pollRun_snapshots rest t 0 (Nat.zero_le _) hchain hactive
  rw [initialPollState, h]
  exact ⟨by simp, rfl⟩

/-- Witness for C2: the three-snapshot run delivers `[demoEventA,
demoEventB, demoEventC]` once each, cursor ending at 3. -/
theorem polling_exactly_once_in_order_witness :
    (pollRun initialPollState
        ([demoSnap1, demoSnap2, demoSnap3].map (fun x => Except.ok (some x)))).emitted
      = (lastTest demoSnap1 [demoSnap2, demoSnap3]).events ∧
    (pollRun initialPollState
        ([demoSnap1, demoSnap2, demoSnap3].map (fun x => Except.ok (some x)))).final.lastEventCount
      = (lastTest demoSnap1 [demoSnap2, demoSnap3]).events.length :=
  polling_exactly_once_in_order demoSnap1 [demoSnap2, demoSnap3]
    (List.Chain.cons ⟨[demoEventB], rfl⟩ (List.Chain.cons ⟨[demoEventC], rfl⟩ List.Chain.nil))
    ⟨by decide, by decide, trivial⟩

/-- Timestamp-blind event lists agree after blanking timestamps. -/
theorem map_strip_of_forallTwo {l₁ l₂ : List PentestEvent}
    (h : List.Forall₂ EventEqUpToTime l₁ l₂) :
    l₁.map stripTimestamp = l₂.map stripTimestamp := by
  induction h with
  | nil => rfl
  | cons he _ ih =>
    simp only [List.map_cons, ih, List.cons.injEq, and_true]
    exact he

/-- One poll step is timestamp-blind: on fetch results that differ at most
in event timestamps it produces the same locals, the same number of
`onError` calls, and emissions equal up to timestamps. -/
theorem pollStep_time_eq (s : PollState) {r₁ r₂ : FetchResult} (h : FetchEqUpToTime r₁ r₂) :
    (pollStep s r₁).final = (pollStep s r₂).final ∧
    (pollStep s r₁).errorCalls = (pollStep s r₂).errorCalls ∧
    List.Forall₂ EventEqUpToTime (pollStep s r₁).emitted (pollStep s r₂).emitted := by
  by_cases hp : s.isPolling = false
  · simp [pollStep, hp]
  · match r₁, r₂, h with
    | Except.error m₁, Except.error m₂, h => simp [pollStep, hp]
    | Except.ok none, Except.ok none, _ => simp [pollStep, hp]
    | Except.ok (some t₁), Except.ok (some t₂), h =>
        obtain ⟨-, hstatus, -, hevents⟩ := h
        have hlen : t₁.events.length = t₂.events.length := List.Forall₂.length_eq hevents
        by_cases hc : s.lastEventCount < t₁.events.length
        · have hc₂ : s.lastEventCount < t₂.events.length := hlen ▸ hc
          refine ⟨?_, ?_, ?_⟩
          · simp [pollStep, hp, hc, hc₂, hstatus, hlen]
          · simp [pollStep, hp, hc, hc₂]
          · simp only [pollStep, hp, hc, hc₂, if_true, if_false, Bool.false_eq_true]
            simpa using List.forall₂_drop s.lastEventCount hevents
        · have hc₂ : ¬s.lastEventCount < t₂.events.length := hlen ▸ hc
          refine ⟨?_, ?_, ?_⟩
          · simp [pollStep, hp, hc, hc₂, hstatus]
          · simp [pollStep, hp, hc, hc₂]
          · simp [pollStep, hp, hc, hc₂]

/-- The whole polling loop is timestamp-blind. -/
theorem pollRun_time_eq : ∀ {rs₁ rs₂ : List FetchResult} (s : PollState),
    List.Forall₂ FetchEqUpToTime rs₁ rs₂ →
    (pollRun s rs₁).final = (pollRun s rs₂).final ∧
    (pollRun s rs₁).errorCalls = (pollRun s rs₂).errorCalls ∧
    List.Forall₂ EventEqUpToTime (pollRun s rs₁).emitted (pollRun s rs₂).emitted := by
  intro rs₁ rs₂ s h
  induction h generalizing s with
  | nil => simp [pollRun]
  | @cons r₁ r₂ l₁ l₂ hr hrs ih =>
    obtain ⟨hfin, herr, hem⟩ := pollStep_time_eq s hr
    rw [pollRun_cons, pollRun_cons, hfin, herr]
    obtain ⟨hfin', herr', hem'⟩ := ih (pollStep s r₂).final
    exact ⟨hfin', by rw [herr'], List.rel_append hem hem'⟩

/-- Claim C6: timestamp noninterference — two snapshot-response sequences
that differ only in the `timestamp` fields of their events drive the
polling subscription identically: same final locals, same `onError`
count, and emissions that are the same events in the same order
(pointwise equal up to the changed timestamps, equal once timestamps are
blanked).  Ordering and deduplication depend only on list position, never
on wall-clock timestamps. -/
theorem polling_timestamp_noninterference (rs₁ rs₂ : List FetchResult)
    (h : List.Forall₂ FetchEqUpToTime rs₁ rs₂) :
    (pollRun initialPollState rs₁).final = (pollRun initialPollState rs₂).final ∧
    (pollRun initialPollState rs₁).errorCalls = (pollRun initialPollState rs₂).errorCalls ∧
    List.Forall₂ EventEqUpToTime (pollRun initialPollState rs₁).emitted
      (pollRun initialPollState rs₂).emitted ∧
    ((pollRun initialPollState rs₁).emitted).map stripTimestamp
      = ((pollRun initialPollState rs₂).emitted).map stripTimestamp := by
  obtain ⟨hfin, herr, hem⟩ := pollRun_time_eq initialPollState h
  exact ⟨hfin, herr, hem, map_strip_of_forallTwo hem⟩

/-- Witness for C6: a run and its retimed copy (`demoSnap1` versus
`demoSnap1'`, which differ only in one event timestamp) drive the
subscription identically. -/
theorem polling_timestamp_noninterference_witness :
    (pollRun initialPollState [Except.ok (some demoSnap1)]).final
      = (pollRun initialPollState [Except.ok (some demoSnap1')]).final ∧
    (pollRun initialPollState [Except.ok (some demoSnap1)]).errorCalls
      = (pollRun initialPollState [Except.ok (some demoSnap1')]).errorCalls ∧
    List.Forall₂ EventEqUpToTime (pollRun initialPollState [Except.ok (some demoSnap1)]).emitted
      (pollRun initialPollState [Except.ok (some demoSnap1')]).emitted ∧
    ((pollRun initialPollState [Except.ok (some demoSnap1)]).emitted).map stripTimestamp
      = ((pollRun initialPollState [Except.ok (some demoSnap1')]).emitted).map stripTimestamp :=
  polling_timestamp_noninterference [Except.ok (some demoSnap1)] [Except.ok (some demoSnap1')]
    (List.Forall₂.cons ⟨rfl, rfl, rfl, List.Forall₂.cons rfl List.Forall₂.nil⟩
      List.Forall₂.nil)

/-- Counterexample to claim C7: a poll that has already passed its
`if (!isPolling) return` entry guard when the cleanup function runs is
not silenced — once its `getTestById` settles it still replays the batch
to `onEvent`, even though `isPolling` is already `false`.  Concretely:
right after subscribing (first poll in flight), cleanup runs, then the
in-flight fetch settles with `demoSnap1`; `demoEventA` is delivered after
cleanup. -/
theorem disconnect_inflight_counterexample :
    (subStep initialSubState SubAction.cleanup).2 = [] ∧
    (subStep initialSubState SubAction.cleanup).1.isPolling = false ∧
    (subStep (subStep initialSubState SubAction.cleanup).1
        (SubAction.respond (Except.ok (some demoSnap1)))).2 = [demoEventA] := by decide

/-- From a quiescent state — not polling and no response in flight — no
step of the subscription ever emits an event, and quiescence persists. -/
theorem subRun_quiescent : ∀ (as : List SubAction) (s : SubscriptionState),
    s.isPolling = false → s.awaitingResponse = false →
    (subRun s as).2 = [] := by
  intro as
  induction as with
  | nil => intro s _ _; rfl
  | cons a as ih =>
    intro s h1 h2
    have hstep : (subStep s a).1.isPolling = false ∧
        (subStep s a).1.awaitingResponse = false ∧ (subStep s a).2 = [] := by
      cases a with
      | timerFires =>
        by_cases ht : s.timeoutPending
        · simp [subStep, ht, h1, h2]
        · simp [subStep, ht, h1, h2]
      | respond r => simp [subStep, h1, h2]
      | cleanup => simp [subStep, h2]
    show ((subStep s a).2 ++ (subRun (subStep s a).1 as).2) = []
    rw [hstep.2.2, ih (subStep s a).1 hstep.1 hstep.2.1]
    rfl

/-- Claim C7 as amended: after the cleanup function runs, no new poll is
ever started (`isPolling` is cleared and the pending timeout cancelled),
and — provided no poll body was suspended at its `await getTestById` when
cleanup ran — no event is ever delivered to `onEvent` in any subsequent
step.  (A poll already past its entry guard may still deliver the batch
of its one in-flight fetch; only that batch can still reach `onEvent`.)
Stream mode closes the `EventSource`, after which the transport delivers
no further messages. -/
theorem disconnect_stops_delivery_amended (s : SubscriptionState) (as : List SubAction)
    (h : s.awaitingResponse = false) :
    (subStep s SubAction.cleanup).2 = [] ∧
    (subStep s SubAction.cleanup).1.isPolling = false ∧
    (subRun (subStep s SubAction.cleanup).1 as).2 = [] := by
  refine ⟨rfl, rfl, subRun_quiescent as _ rfl ?_⟩
  exact h

/-- Witness for C7 (amended): from an idle mid-subscription state (cursor
2, timeout pending, nothing in flight), cleanup followed by a stray timer
fire and a stray response delivers nothing. -/
theorem disconnect_stops_delivery_amended_witness :
    (⟨true, 2, false, true⟩ : SubscriptionState).awaitingResponse = false ∧
    ((subStep ⟨true, 2, false, true⟩ SubAction.cleanup).2 = [] ∧
      (subStep ⟨true, 2, false, true⟩ SubAction.cleanup).1.isPolling = false ∧
      (subRun (subStep ⟨true, 2, false, true⟩ SubAction.cleanup).1
        [SubAction.timerFires, SubAction.respond (Except.ok (some demoSnap2))]).2 = []) :=
  ⟨rfl, disconnect_stops_delivery_amended ⟨true, 2, false, true⟩
    [SubAction.timerFires, SubAction.respond (Except.ok (some demoSnap2))] rfl⟩

/-- Counterexample to claim C8: severity is not consumed
case-insensitively everywhere — the finding badge of
`ScanHistoryComponent` compares `severity` literally against `"HIGH"` and
`"MEDIUM"`, so the spellings `HIGH` and `High` of the same severity are
rendered with different badge classes (`High` falls through to the
low-severity class). -/
theorem severity_casing_counterexample :
    lowerString ("High") = lowerString ("HIGH") ∧
    findingBadgeClass ("HIGH") = "bg-red-500" ∧
    findingBadgeClass ("High") = "bg-blue-500" := by decide

/-- Recasing a finding list commutes with one `pushGroup` step. -/
theorem pushGroup_map (f : TestResult → TestResult) (key : String) (r : TestResult) :
    ∀ acc : List (String × List TestResult),
    pushGroup (acc.map (fun g => (g.1, g.2.map f))) key (f r)
      = (pushGroup acc key r).map (fun g => (g.1, g.2.map f)) := by
  intro acc
  induction acc with
  | nil => rfl
  | cons g rest ih =>
    obtain ⟨k, rs⟩ := g
    by_cases hk : k = key
    · simp [pushGroup, hk]
    · simp [pushGroup, hk, ih]

/-- Recasing a finding list commutes with the whole grouping fold. -/
theorem groupedFold_map (f : TestResult → TestResult)
    (hf : ∀ r, lowerString (f r).severity = lowerString r.severity) :
    ∀ (results : List TestResult) (acc : List (String × List TestResult)),
    List.foldl (fun acc r => pushGroup acc (lowerString r.severity) r)
        (acc.map (fun g => (g.1, g.2.map f))) (results.map f)
      = (List.foldl (fun acc r => pushGroup acc (lowerString r.severity) r) acc results).map
          (fun g => (g.1, g.2.map f)) := by
  intro results
  induction results with
  | nil => intro acc; rfl
  | cons r rs ih =>
    intro acc
    simp only [List.map_cons, List.foldl_cons, hf r]
    rw [pushGroup_map f (lowerString r.severity) r acc]
    exact ih (pushGroup acc (lowerString r.severity) r)

/-- Claim C8 as amended: the per-severity finding counts of `HomePage`
and the `groupedResults` grouping of `ScanLog` are invariant under any
recasing of the findings' severity strings (the groups hold the recased
findings at the same keys and positions); the severity badge class of
`ScanHistoryComponent`, however, is case-sensitive and is exempt from
this invariance. -/
theorem severity_casing_amended (results : List TestResult) (f : TestResult → TestResult)
    (hf : ∀ r, lowerString (f r).severity = lowerString r.severity) :
    severityCounts (results.map f) = severityCounts results ∧
    groupedResults (results.map f)
      = (groupedResults results).map (fun g => (g.1, g.2.map f)) := by
  constructor
  · have hp : ∀ key : String,
        ((fun r => lowerString r.severity == key) ∘ f)
          = fun r => lowerString r.severity == key := by
      intro key
      funext r
      simp [Function.comp, hf r]
    simp only [severityCounts, List.filter_map, hp, List.length_map]
  · have h := groupedFold_map f hf results []
    simpa [groupedResults] using h

/-- Witness for C8 (amended): recasing `high` severities to `HIGH` over
`[demoHigh, demoMedium]` leaves the counts and the grouping shape
unchanged. -/
theorem severity_casing_amended_witness :
    (∀ r, lowerString (demoRecase r).severity = lowerString r.severity) ∧
    (severityCounts ([demoHigh, demoMedium].map demoRecase)
        = severityCounts [demoHigh, demoMedium] ∧
      groupedResults ([demoHigh, demoMedium].map demoRecase)
        = (groupedResults [demoHigh, demoMedium]).map
            (fun g => (g.1, g.2.map demoRecase))) := by
  have hf : ∀ r, lowerString (demoRecase r).severity = lowerString r.severity := by
    intro r
    by_cases h : (lowerString r.severity == "high") = true
    · have h' : lowerString r.severity = "high" := beq_iff_eq.mp h
      simp [demoRecase, h, h']
      decide
    · simp [demoRecase, h]
  exact ⟨hf, severity_casing_amended [demoHigh, demoMedium] demoRecase hf⟩

end AutoPen
